import Mathlib

/- Verification development for the scoring core of geo_analyzer_app.py:
feature signals, the scoring engine (technical / structure / authority
sub-scores, weighted final score, issue list), and the grade / priority
classifier. Numeric score arithmetic is embedded over the rationals; the
achievable weighted sums are all exact multiples of 1/4, so the embedding
agrees with the source arithmetic on every reachable value. -/

namespace GeoAnalyzer

/-- The fixed set of signals the feature extractor produces (source lines
57-81). Boolean presence signals are Bool; the heading rule of line 61 uses
the h1-presence flag together with the total heading count; the paragraph
rule of line 65 uses the count of paragraphs longer than 80 words; line 78
produces the external-link count. -/
structure SignalSet where
  hasStructuredData : Bool
  hasSemanticSectioning : Bool
  hasH1 : Bool
  headingCount : Nat
  hasRecentDateMention : Bool
  longParagraphCount : Nat
  hasTableOrDl : Bool
  hasList : Bool
  mentionsFaq : Bool
  mentionsAuthorCredential : Bool
  externalLinkCount : Nat
  hasTrustBadgeImage : Bool

/-- Heading rule condition of line 61: an h1 is present and the count of
h1..h6 heading elements exceeds 3. -/
def goodHeading (s : SignalSet) : Bool :=
  s.hasH1 && decide (3 < s.headingCount)

/-- Paragraph-length rule condition of line 65: fewer than 3 paragraphs of
more than 80 words. -/
def fewLongParagraphs (s : SignalSet) : Bool :=
  decide (s.longParagraphCount < 3)

/-- External-link rule condition of line 79: strictly more than 8 links
whose host differs from the source host. -/
def manyExternalLinks (s : SignalSet) : Bool :=
  decide (8 < s.externalLinkCount)

/-- Technical sub-score, source lines 57-65. -/
def tech_score (s : SignalSet) : ℕ :=
  (if s.hasStructuredData then 35 else 0) +
  (if s.hasSemanticSectioning then 20 else 0) +
  (if goodHeading s then 20 else 0) +
  (if s.hasRecentDateMention then 15 else 0) +
  (if fewLongParagraphs s then 10 else 0)

/-- Structure sub-score, source lines 68-73. -/
def structure_score (s : SignalSet) : ℕ :=
  (if s.hasTableOrDl then 40 else 0) +
  (if s.hasList then 25 else 0) +
  (if s.mentionsFaq then 35 else 0)

/-- Authority sub-score, source lines 76-81. -/
def authority_score (s : SignalSet) : ℕ :=
  (if s.mentionsAuthorCredential then 40 else 0) +
  (if manyExternalLinks s then 35 else 0) +
  (if s.hasTrustBadgeImage then 25 else 0)

/-- Issue list accumulated by the else-branches of lines 57-80, in source
evaluation order: the paragraph rule (line 65) and the trust-badge rule
(line 81) append nothing when they fail. -/
def issues (s : SignalSet) : List (String × String) :=
  (if s.hasStructuredData then [] else [("No JSON-LD structured data", "Quick")]) ++
  (if s.hasSemanticSectioning then [] else [("Limited semantic HTML", "Moderate")]) ++
  (if goodHeading s then [] else [("Fix heading hierarchy", "Moderate")]) ++
  (if s.hasRecentDateMention then [] else [("Add publish/update date", "Quick")]) ++
  (if s.hasTableOrDl then [] else [("Add spec/comparison tables", "Moderate")]) ++
  (if s.hasList then [] else [("Use bullet/numbered lists", "Quick")]) ++
  (if s.mentionsFaq then [] else [("Add FAQ section", "Moderate")]) ++
  (if s.mentionsAuthorCredential then [] else [("Add author byline + credentials", "Quick")]) ++
  (if manyExternalLinks s then [] else [("Link to reputable sources", "Moderate")])

/-- Round-half-to-even of a rational to an integer: the tie-breaking rule of
the Python built-in round. -/
def roundHalfEven (y : ℚ) : ℤ :=
  if y - ⌊y⌋ < 1/2 then ⌊y⌋
  else if 1/2 < y - ⌊y⌋ then ⌊y⌋ + 1
  else if ⌊y⌋ % 2 = 0 then ⌊y⌋ else ⌊y⌋ + 1

/-- Python round(x, 1): round to one decimal place, ties to even. -/
def pyRound1 (x : ℚ) : ℚ :=
  (roundHalfEven (10 * x) : ℚ) / 10

/-- Final weighted score of line 84:
round(tech_score*0.4 + structure_score*0.35 + authority_score*0.25, 1). -/
def final_score (s : SignalSet) : ℚ :=
  pyRound1 ((tech_score s : ℚ) * 0.4 + (structure_score s : ℚ) * 0.35 +
    (authority_score s : ℚ) * 0.25)

/-- The grade thresholds of line 87, written down from highest to lowest.
The source stores these nine pairs in a Python set literal, so the order in
which line 88 iterates over them is an unspecified permutation of this
list (set iteration order depends on string hashing). -/
def grade_table : List (ℚ × String) :=
  [(94, "A+"), (87, "A"), (80, "A-"), (77, "B+"), (73, "B"), (70, "B-"),
   (67, "C+"), (63, "C"), (60, "C-")]

/-- Line 88, next((g for s,g in grades if final_score >= s), "F"), evaluated
along a given iteration order of the threshold pairs. -/
def gradeScan (order : List (ℚ × String)) (x : ℚ) : String :=
  match order with
  | [] => "F"
  | p :: rest => if p.1 ≤ x then p.2 else gradeScan rest x

/-- One possible iteration order of the threshold set: the pair (87, A)
visited before (94, A+), the remaining pairs in table order. -/
def badGradeOrder : List (ℚ × String) :=
  [(87, "A"), (94, "A+"), (80, "A-"), (77, "B+"), (73, "B"), (70, "B-"),
   (67, "C+"), (63, "C"), (60, "C-")]

/-- Priority chain of line 89. -/
def priority (x : ℚ) : String :=
  if x < 60 then "URGENT"
  else if x < 75 then "HIGH"
  else if x < 85 then "MEDIUM"
  else "LOW"

/-- The grade-and-priority classification of lines 87-89, as a function of
the final score and of the iteration order the set of line 87 happens to
produce. -/
def classify (order : List (ℚ × String)) (x : ℚ) : String × String :=
  (gradeScan order x, priority x)

/-- The SignalSet extracted from empty markup: BeautifulSoup of the empty
string has no elements and empty text, so every find returns nothing, every
find_all returns an empty list, and every substring test on the empty text
is false; hence every presence flag is false and every count is 0. -/
def emptySignals : SignalSet :=
  ⟨false, false, false, 0, false, 0, false, false, false, false, 0, false⟩

/-- One row of the fixed rule table of section 4.2 of the specification:
a condition on the SignalSet, the points the rule awards, and the issue
entry appended when the rule fails (none for the two silent rules). -/
structure Rule where
  cond : SignalSet → Bool
  points : ℕ
  issue : Option (String × String)

/-- The full rule table in evaluation order: the five technical rules, the
three structure rules, the three authority rules. -/
def ruleTable : List Rule :=
  [⟨fun s => s.hasStructuredData, 35, some ("No JSON-LD structured data", "Quick")⟩,
   ⟨fun s => s.hasSemanticSectioning, 20, some ("Limited semantic HTML", "Moderate")⟩,
   ⟨goodHeading, 20, some ("Fix heading hierarchy", "Moderate")⟩,
   ⟨fun s => s.hasRecentDateMention, 15, some ("Add publish/update date", "Quick")⟩,
   ⟨fewLongParagraphs, 10, none⟩,
   ⟨fun s => s.hasTableOrDl, 40, some ("Add spec/comparison tables", "Moderate")⟩,
   ⟨fun s => s.hasList, 25, some ("Use bullet/numbered lists", "Quick")⟩,
   ⟨fun s => s.mentionsFaq, 35, some ("Add FAQ section", "Moderate")⟩,
   ⟨fun s => s.mentionsAuthorCredential, 40, some ("Add author byline + credentials", "Quick")⟩,
   ⟨manyExternalLinks, 35, some ("Link to reputable sources", "Moderate")⟩,
   ⟨fun s => s.hasTrustBadgeImage, 25, none⟩]

/-- Issue list read off a rule table: the issue entries of the failed rules,
in table order. This follows the wording of the specification (issues are
exactly the failed rules in fixed table evaluation order) and is compared
with the sequential construction of the source. -/
def tableIssues : List Rule → SignalSet → List (String × String)
  | [], _ => []
  | r :: rest, s =>
    (if r.cond s then []
     else
       match r.issue with
       | none => []
       | some i => [i]) ++ tableIssues rest s

/-- Characters urllib.parse accepts inside a URL scheme after the leading
letter. -/
def isSchemeChar (c : Char) : Bool :=
  c.isAlphanum || c == '+' || c == '-' || c == '.'

/-- Strip a leading scheme (a letter, further scheme characters, then a
colon) from a character list, as urllib.parse does before locating the
network-location component. -/
def dropScheme (cs : List Char) : List Char :=
  match cs with
  | [] => []
  | c :: _ =>
    if c.isAlpha then
      match cs.drop (cs.takeWhile isSchemeChar).length with
      | ':' :: rest => rest
      | _ => cs
    else cs

/-- Network-location component of a URL string, as urlparse(u).netloc does:
the text after a leading double slash (once any scheme is removed) up to
the next slash, question mark or hash; empty when the URL has no authority
part, in particular for relative references such as /about. -/
def netloc (u : String) : String :=
  match dropScheme u.data with
  | '/' :: '/' :: rest =>
    String.mk (rest.takeWhile (fun c => !(c == '/' || c == '?' || c == '#')))
  | _ => ""

/-- Line 78: the number of anchors whose parsed link-target host differs
from the parsed host of the source URL. -/
def externalCount (srcUrl : String) (hrefs : List String) : ℕ :=
  (hrefs.filter (fun h => netloc h != netloc srcUrl)).length

/-- The external-link count as the claim words it: anchors without a
resolvable host are excluded, the others counted when their host differs
from the source host. Stated only for comparison with externalCount. -/
def externalCountClaimed (srcUrl : String) (hrefs : List String) : ℕ :=
  (hrefs.filter (fun h => netloc h != "" && netloc h != netloc srcUrl)).length

/-- Match of the first alternative of the line 63 regex at the head of a
character list: four digits, hyphen, two digits, hyphen, two digits. -/
def matchIsoAt : List Char → Bool
  | a :: b :: c :: d :: '-' :: e :: f :: '-' :: g :: k :: _ =>
    a.isDigit && b.isDigit && c.isDigit && d.isDigit &&
    e.isDigit && f.isDigit && g.isDigit && k.isDigit
  | _ => false

/-- Match of the second alternative of the line 63 regex at the head of a
character list: the literal digits 202 followed by a digit from 4 to 9. -/
def matchYearAt : List Char → Bool
  | '2' :: '0' :: '2' :: c :: _ => decide ('4' ≤ c) && decide (c ≤ '9')
  | _ => false

/-- re.search of line 63: some position of the text matches one of the two
alternatives. -/
def searchRecent : List Char → Bool
  | [] => false
  | c :: rest => matchIsoAt (c :: rest) || matchYearAt (c :: rest) || searchRecent rest

/-- The recent-date signal of lines 63-64 as a function of the plain text
(the source ranges over Unicode digits as well, immaterial here). -/
def hasRecentDate (text : String) : Bool :=
  searchRecent text.data

/-- C1: the claim requires the grade scan to run strictly from the highest
threshold to the lowest, with 94.0 grading A+ and 93.9 grading A. The code
iterates a Python set literal, whose iteration order is an unspecified,
hash-dependent permutation of the table: under the iteration order that
visits (87, A) first, the score 94.0 grades A instead of A+. Under the
intended highest-to-lowest order the claimed grades do come out. -/
theorem grade_scan_set_order_bug :
    badGradeOrder.Perm grade_table ∧
    gradeScan badGradeOrder 94 = "A" ∧
    gradeScan grade_table 94 = "A+" ∧
    gradeScan grade_table 93.9 = "A" := by
  refine ⟨?_, ?_, ?_, ?_⟩
  · simp only [badGradeOrder, grade_table]
    exact List.Perm.swap _ _ _
  · norm_num [gradeScan, badGradeOrder]
  · norm_num [gradeScan, grade_table]
  · norm_num [gradeScan, grade_table]

/-- C2: the claim says any two evaluations of the classification on the
same score agree. The grade half of the classification depends on the
iteration order of the set literal of line 87, which string-hash
randomization changes between runs: at score 94.0 two legitimate iteration
orders of the same set yield different pairs. -/
theorem classify_rerun_order_bug :
    badGradeOrder.Perm grade_table ∧
    classify grade_table 94 ≠ classify badGradeOrder 94 := by
  constructor
  · simp only [badGradeOrder, grade_table]
    exact List.Perm.swap _ _ _
  · norm_num [classify, gradeScan, badGradeOrder, grade_table, Prod.ext_iff]
    decide

/-- C4 counterexample: an anchor with no resolvable host (the relative
reference /about) is counted by the code, because its empty netloc differs
from the source host, while the claim says such anchors are excluded. -/
theorem external_link_counterexample :
    netloc "/about" = "" ∧
    externalCount "https://example.com/page" ["/about"] = 1 ∧
    externalCountClaimed "https://example.com/page" ["/about"] = 0 := by
  refine ⟨?_, ?_, ?_⟩ <;> decide

/-- C4 amended: an anchor whose href has no resolvable host is counted as
external whenever the source URL has a nonempty host; the authority rule
awards its 35 points only for a count strictly above 8, so a count of
exactly 8 fails the rule, the issue Link to reputable sources is emitted,
and the authority score comes only from the two other authority rules. -/
theorem external_link_amended :
    (∀ src h : String, netloc h = "" → netloc src ≠ "" →
      externalCount src [h] = 1) ∧
    (∀ s : SignalSet, s.externalLinkCount = 8 →
      manyExternalLinks s = false ∧
      ("Link to reputable sources", "Moderate") ∈ issues s ∧
      authority_score s =
        (if s.mentionsAuthorCredential then 40 else 0) +
        (if s.hasTrustBadgeImage then 25 else 0)) := by
  constructor
  · intro src h h1 h2
    have hb : (netloc h != netloc src) = true := by
      rw [h1]
      exact bne_iff_ne.mpr (Ne.symm h2)
    simp [externalCount, hb]
  · intro s h8
    have hm : manyExternalLinks s = false := by
      simp [manyExternalLinks, h8]
    refine ⟨hm, ?_, ?_⟩
    · simp [issues, hm]
    · simp [authority_score, hm]

/-- Witness for the amended C4 statement at concrete inputs. -/
theorem external_link_amended_witness :
    externalCount "https://example.com/page" ["/about"] = 1 ∧
    ("Link to reputable sources", "Moderate") ∈
      issues ⟨false, false, false, 0, false, 0, false, false, false, false, 8, false⟩ := by
  constructor
  · exact external_link_amended.1 "https://example.com/page" "/about" (by decide) (by decide)
  · exact (external_link_amended.2 _ rfl).2.1

/-- C10: the recent-date signal fires on the digit pattern 9999-99-99,
which is not a valid calendar date, and on 12025, which contains 2025 only
embedded in a longer number; a signal set that differs from the empty one
only in this flag gains exactly the 15 technical points. -/
theorem recent_date_overmatch :
    hasRecentDate "9999-99-99" = true ∧
    hasRecentDate "12025" = true ∧
    tech_score ⟨false, false, false, 0, true, 0, false, false, false, false, 0, false⟩ =
      tech_score emptySignals + 15 := by
  refine ⟨?_, ?_, ?_⟩ <;> decide

/-- C3 counterexample: on the signal set of empty markup the paragraph rule
passes (0 long paragraphs is fewer than 3), so the technical score is 10,
not 0, the final score is not 0, and the issue list has 9 entries, not 8:
the conjunction the claim asserts for empty markup is false. -/
theorem empty_markup_zero_counterexample :
    ¬ (tech_score emptySignals = 0 ∧ final_score emptySignals = 0 ∧
       (issues emptySignals).length = 8) := by
  intro h
  have h1 := h.1
  have h2 := h.2.2
  revert h1 h2
  decide

/-- Rounding a rational that is an integer returns that integer. -/
lemma roundHalfEven_intCast (n : ℤ) : roundHalfEven (n : ℚ) = n := by
  unfold roundHalfEven
  rw [Int.floor_intCast]
  norm_num

/-- Rounding never goes below the floor. -/
lemma le_roundHalfEven (y : ℚ) : ⌊y⌋ ≤ roundHalfEven y := by
  unfold roundHalfEven
  split_ifs <;> omega

/-- Rounding never exceeds the floor plus one. -/
lemma roundHalfEven_le_floor_add_one (y : ℚ) : roundHalfEven y ≤ ⌊y⌋ + 1 := by
  unfold roundHalfEven
  split_ifs <;> omega

/-- Python round to one decimal fixes integers. -/
lemma pyRound1_intCast (n : ℤ) : pyRound1 (n : ℚ) = n := by
  have h : (10 : ℚ) * (n : ℚ) = ((10 * n : ℤ) : ℚ) := by
    push_cast
    ring
  rw [pyRound1, h, roundHalfEven_intCast]
  push_cast
  exact mul_div_cancel_left₀ _ (by norm_num)

/-- A scan that no threshold matches falls through to the grade F. -/
lemma gradeScan_eq_F (x : ℚ) (order : List (ℚ × String))
    (h : ∀ p ∈ order, ¬ p.1 ≤ x) : gradeScan order x = "F" := by
  induction order with
  | nil => rfl
  | cons p rest ih =>
    have hp := h p (List.mem_cons_self p rest)
    simp only [gradeScan]
    rw [if_neg hp]
    exact ih fun q hq => h q (List.mem_cons_of_mem p hq)

/-- The exact final score of the empty-markup signal set. -/
lemma final_score_empty : final_score emptySignals = 4 := by
  have ht : tech_score emptySignals = 10 := by decide
  have hs : structure_score emptySignals = 0 := by decide
  have ha : authority_score emptySignals = 0 := by decide
  have h1 : ((tech_score emptySignals : ℚ) * 0.4 +
      (structure_score emptySignals : ℚ) * 0.35 +
      (authority_score emptySignals : ℚ) * 0.25) = ((4 : ℤ) : ℚ) := by
    rw [ht, hs, ha]
    norm_num
  rw [final_score, h1, pyRound1_intCast]
  norm_num

/-- C3 amended: on empty markup every signal is false or zero, so the
paragraph rule passes and the technical score is 10, the other sub-scores
are 0, the final score is 4.0, the grade is F under every iteration order
of the threshold set, the priority is URGENT, and the issue list has
exactly the 9 entries of the failing rules that carry an issue text (the
trust-badge rule fails silently; the paragraph rule passes). -/
theorem empty_markup_amended :
    tech_score emptySignals = 10 ∧
    structure_score emptySignals = 0 ∧
    authority_score emptySignals = 0 ∧
    final_score emptySignals = 4 ∧
    (∀ order : List (ℚ × String), order.Perm grade_table →
      gradeScan order (final_score emptySignals) = "F") ∧
    priority (final_score emptySignals) = "URGENT" ∧
    issues emptySignals =
      [("No JSON-LD structured data", "Quick"),
       ("Limited semantic HTML", "Moderate"),
       ("Fix heading hierarchy", "Moderate"),
       ("Add publish/update date", "Quick"),
       ("Add spec/comparison tables", "Moderate"),
       ("Use bullet/numbered lists", "Quick"),
       ("Add FAQ section", "Moderate"),
       ("Add author byline + credentials", "Quick"),
       ("Link to reputable sources", "Moderate")] := by
  refine ⟨by decide, by decide, by decide, final_score_empty, ?_, ?_, by decide⟩
  · intro order hperm
    apply gradeScan_eq_F
    intro p hp
    have hp2 : p ∈ grade_table := hperm.mem_iff.mp hp
    rw [final_score_empty]
    simp only [grade_table, List.mem_cons, List.not_mem_nil, or_false] at hp2
    rcases hp2 with h | h | h | h | h | h | h | h | h <;> subst h <;> norm_num
  · rw [final_score_empty]
    norm_num [priority]

/-- Witness of the amended C3 statement: the universally quantified grade
conjunct instantiated at the table order itself. -/
theorem empty_markup_amended_witness :
    gradeScan grade_table (final_score emptySignals) = "F" ∧
    (issues emptySignals).length = 9 := by
  constructor
  · exact empty_markup_amended.2.2.2.2.1 grade_table (List.Perm.refl _)
  · rw [empty_markup_amended.2.2.2.2.2.2]
    decide

/-- C7: over the score range 0 to 100 the priority is URGENT exactly below
60, HIGH exactly from 60 up to below 75, MEDIUM exactly from 75 up to
below 85, and LOW exactly from 85; each boundary value falls in the
higher-scoring bucket. -/
theorem priority_thresholds (x : ℚ) (h0 : 0 ≤ x) (h1 : x ≤ 100) :
    (priority x = "URGENT" ↔ x < 60) ∧
    (priority x = "HIGH" ↔ 60 ≤ x ∧ x < 75) ∧
    (priority x = "MEDIUM" ↔ 75 ≤ x ∧ x < 85) ∧
    (priority x = "LOW" ↔ 85 ≤ x) := by
  refine ⟨?_, ?_, ?_, ?_⟩ <;>
    unfold priority <;>
    split_ifs with a b c <;>
    simp_all <;>
    first
      | linarith
      | (constructor <;> linarith)
      | (intro hh; linarith)

/-- Witness for the priority thresholds at the boundary score 60. -/
theorem priority_thresholds_witness :
    (priority 60 = "URGENT" ↔ (60 : ℚ) < 60) ∧
    (priority 60 = "HIGH" ↔ (60 : ℚ) ≤ 60 ∧ (60 : ℚ) < 75) ∧
    (priority 60 = "MEDIUM" ↔ (75 : ℚ) ≤ 60 ∧ (60 : ℚ) < 85) ∧
    (priority 60 = "LOW" ↔ (85 : ℚ) ≤ 60) :=
  priority_thresholds 60 (by norm_num) (by norm_num)

/-- C8: the sequentially built issue list of the source equals, for every
signal set, the issue texts of the failed rules read off the fixed rule
table in order: technical rules first, then structure, then authority. -/
theorem issues_eq_table_filter (s : SignalSet) :
    issues s = tableIssues ruleTable s := by
  simp [issues, tableIssues, ruleTable, List.append_assoc]

/-- C9: at most 9 of the 11 rules ever append an issue, so the issue list
never exceeds 9 entries and the display truncation to the first 10 entries
returns the whole list, which is what the PDF export serializes. -/
theorem issues_at_most_nine (s : SignalSet) :
    (issues s).length ≤ 9 ∧ (issues s).take 10 = issues s := by
  have h : (issues s).length ≤ 9 := by
    unfold issues
    simp only [List.length_append]
    split_ifs <;> simp
  exact ⟨h, List.take_of_length_le (h.trans (by norm_num))⟩

/-- The technical sub-score never exceeds 100. -/
lemma tech_score_le (s : SignalSet) : tech_score s ≤ 100 := by
  unfold tech_score
  split_ifs <;> omega

/-- The structure sub-score never exceeds 100. -/
lemma structure_score_le (s : SignalSet) : structure_score s ≤ 100 := by
  unfold structure_score
  split_ifs <;> omega

/-- The authority sub-score never exceeds 100. -/
lemma authority_score_le (s : SignalSet) : authority_score s ≤ 100 := by
  unfold authority_score
  split_ifs <;> omega

/-- A positive technical sub-score is at least 10, the smallest rule. -/
lemma tech_score_zero_or_ge (s : SignalSet) :
    tech_score s = 0 ∨ 10 ≤ tech_score s := by
  unfold tech_score
  split_ifs <;> omega

/-- A positive structure sub-score is at least 25, the smallest rule. -/
lemma structure_score_zero_or_ge (s : SignalSet) :
    structure_score s = 0 ∨ 25 ≤ structure_score s := by
  unfold structure_score
  split_ifs <;> omega

/-- A positive authority sub-score is at least 25, the smallest rule. -/
lemma authority_score_zero_or_ge (s : SignalSet) :
    authority_score s = 0 ∨ 25 ≤ authority_score s := by
  unfold authority_score
  split_ifs <;> omega

/-- A technical sub-score below 100 is at most 90. -/
lemma tech_score_hundred_or_le (s : SignalSet) :
    tech_score s = 100 ∨ tech_score s ≤ 90 := by
  unfold tech_score
  split_ifs <;> omega

/-- A structure sub-score below 100 is at most 75. -/
lemma structure_score_hundred_or_le (s : SignalSet) :
    structure_score s = 100 ∨ structure_score s ≤ 75 := by
  unfold structure_score
  split_ifs <;> omega

/-- An authority sub-score below 100 is at most 75. -/
lemma authority_score_hundred_or_le (s : SignalSet) :
    authority_score s = 100 ∨ authority_score s ≤ 75 := by
  unfold authority_score
  split_ifs <;> omega

/-- The technical sub-score vanishes exactly when all five technical rules
fail. -/
lemma tech_score_zero_iff (s : SignalSet) :
    tech_score s = 0 ↔
      s.hasStructuredData = false ∧ s.hasSemanticSectioning = false ∧
      goodHeading s = false ∧ s.hasRecentDateMention = false ∧
      fewLongParagraphs s = false := by
  unfold tech_score
  cases h1 : s.hasStructuredData <;> cases h2 : s.hasSemanticSectioning <;>
    cases h3 : goodHeading s <;> cases h4 : s.hasRecentDateMention <;>
    cases h5 : fewLongParagraphs s <;> simp

/-- The technical sub-score reaches 100 exactly when all five technical
rules pass. -/
lemma tech_score_hundred_iff (s : SignalSet) :
    tech_score s = 100 ↔
      s.hasStructuredData = true ∧ s.hasSemanticSectioning = true ∧
      goodHeading s = true ∧ s.hasRecentDateMention = true ∧
      fewLongParagraphs s = true := by
  unfold tech_score
  cases h1 : s.hasStructuredData <;> cases h2 : s.hasSemanticSectioning <;>
    cases h3 : goodHeading s <;> cases h4 : s.hasRecentDateMention <;>
    cases h5 : fewLongParagraphs s <;> simp

/-- The structure sub-score vanishes exactly when all three structure rules
fail. -/
lemma structure_score_zero_iff (s : SignalSet) :
    structure_score s = 0 ↔
      s.hasTableOrDl = false ∧ s.hasList = false ∧ s.mentionsFaq = false := by
  unfold structure_score
  cases h1 : s.hasTableOrDl <;> cases h2 : s.hasList <;>
    cases h3 : s.mentionsFaq <;> simp

/-- The structure sub-score reaches 100 exactly when all three structure
rules pass. -/
lemma structure_score_hundred_iff (s : SignalSet) :
    structure_score s = 100 ↔
      s.hasTableOrDl = true ∧ s.hasList = true ∧ s.mentionsFaq = true := by
  unfold structure_score
  cases h1 : s.hasTableOrDl <;> cases h2 : s.hasList <;>
    cases h3 : s.mentionsFaq <;> simp

/-- The authority sub-score vanishes exactly when all three authority rules
fail. -/
lemma authority_score_zero_iff (s : SignalSet) :
    authority_score s = 0 ↔
      s.mentionsAuthorCredential = false ∧ manyExternalLinks s = false ∧
      s.hasTrustBadgeImage = false := by
  unfold authority_score
  cases h1 : s.mentionsAuthorCredential <;> cases h2 : manyExternalLinks s <;>
    cases h3 : s.hasTrustBadgeImage <;> simp

/-- The authority sub-score reaches 100 exactly when all three authority
rules pass. -/
lemma authority_score_hundred_iff (s : SignalSet) :
    authority_score s = 100 ↔
      s.mentionsAuthorCredential = true ∧ manyExternalLinks s = true ∧
      s.hasTrustBadgeImage = true := by
  unfold authority_score
  cases h1 : s.mentionsAuthorCredential <;> cases h2 : manyExternalLinks s <;>
    cases h3 : s.hasTrustBadgeImage <;> simp

/-- The final score vanishes exactly when all three sub-scores vanish: a
positive sub-score pushes the weighted sum to at least 4 points, far above
the rounding threshold. -/
lemma final_score_zero_iff (s : SignalSet) :
    final_score s = 0 ↔
      tech_score s = 0 ∧ structure_score s = 0 ∧ authority_score s = 0 := by
  constructor
  · intro h
    by_contra hc
    have c1 : ((tech_score s : ℚ)) = 0 ∨ (10 : ℚ) ≤ (tech_score s : ℚ) := by
      rcases tech_score_zero_or_ge s with h1 | h1
      · exact Or.inl (by exact_mod_cast h1)
      · exact Or.inr (by exact_mod_cast h1)
    have c2 : ((structure_score s : ℚ)) = 0 ∨ (25 : ℚ) ≤ (structure_score s : ℚ) := by
      rcases structure_score_zero_or_ge s with h1 | h1
      · exact Or.inl (by exact_mod_cast h1)
      · exact Or.inr (by exact_mod_cast h1)
    have c3 : ((authority_score s : ℚ)) = 0 ∨ (25 : ℚ) ≤ (authority_score s : ℚ) := by
      rcases authority_score_zero_or_ge s with h1 | h1
      · exact Or.inl (by exact_mod_cast h1)
      · exact Or.inr (by exact_mod_cast h1)
    have n1 : (0 : ℚ) ≤ (tech_score s : ℚ) := Nat.cast_nonneg _
    have n2 : (0 : ℚ) ≤ (structure_score s : ℚ) := Nat.cast_nonneg _
    have n3 : (0 : ℚ) ≤ (authority_score s : ℚ) := Nat.cast_nonneg _
    have hw : (4 : ℚ) ≤ (tech_score s : ℚ) * 0.4 + (structure_score s : ℚ) * 0.35 +
        (authority_score s : ℚ) * 0.25 := by
      rcases c1 with h1 | h1 <;> rcases c2 with h2 | h2 <;> rcases c3 with h3 | h3
      · exact absurd ⟨by exact_mod_cast h1, by exact_mod_cast h2, by exact_mod_cast h3⟩ hc
      all_goals linarith
    have hfl : (40 : ℤ) ≤ ⌊(10 : ℚ) * ((tech_score s : ℚ) * 0.4 +
        (structure_score s : ℚ) * 0.35 + (authority_score s : ℚ) * 0.25)⌋ := by
      apply Int.le_floor.mpr
      push_cast
      linarith
    have hge := le_roundHalfEven ((10 : ℚ) * ((tech_score s : ℚ) * 0.4 +
      (structure_score s : ℚ) * 0.35 + (authority_score s : ℚ) * 0.25))
    rw [final_score, pyRound1] at h
    rw [div_eq_zero_iff] at h
    rcases h with h | h
    · have hz : roundHalfEven ((10 : ℚ) * ((tech_score s : ℚ) * 0.4 +
          (structure_score s : ℚ) * 0.35 + (authority_score s : ℚ) * 0.25)) = 0 := by
        exact_mod_cast h
      omega
    · norm_num at h
  · rintro ⟨h1, h2, h3⟩
    rw [final_score, h1, h2, h3]
    have hz : ((0 : ℕ) : ℚ) * 0.4 + ((0 : ℕ) : ℚ) * 0.35 + ((0 : ℕ) : ℚ) * 0.25 =
        ((0 : ℤ) : ℚ) := by norm_num
    rw [hz, pyRound1_intCast]
    norm_num

/-- The final score reaches 100 exactly when all three sub-scores reach
100: a single failed rule costs at least 4 weighted points, far more than
rounding can recover. -/
lemma final_score_hundred_iff (s : SignalSet) :
    final_score s = 100 ↔
      tech_score s = 100 ∧ structure_score s = 100 ∧ authority_score s = 100 := by
  constructor
  · intro h
    by_contra hc
    have c1 : ((tech_score s : ℚ)) = 100 ∨ (tech_score s : ℚ) ≤ 90 := by
      rcases tech_score_hundred_or_le s with h1 | h1
      · exact Or.inl (by exact_mod_cast h1)
      · exact Or.inr (by exact_mod_cast h1)
    have c2 : ((structure_score s : ℚ)) = 100 ∨ (structure_score s : ℚ) ≤ 75 := by
      rcases structure_score_hundred_or_le s with h1 | h1
      · exact Or.inl (by exact_mod_cast h1)
      · exact Or.inr (by exact_mod_cast h1)
    have c3 : ((authority_score s : ℚ)) = 100 ∨ (authority_score s : ℚ) ≤ 75 := by
      rcases authority_score_hundred_or_le s with h1 | h1
      · exact Or.inl (by exact_mod_cast h1)
      · exact Or.inr (by exact_mod_cast h1)
    have u1 : (tech_score s : ℚ) ≤ 100 := by exact_mod_cast tech_score_le s
    have u2 : (structure_score s : ℚ) ≤ 100 := by exact_mod_cast structure_score_le s
    have u3 : (authority_score s : ℚ) ≤ 100 := by exact_mod_cast authority_score_le s
    have hw : (tech_score s : ℚ) * 0.4 + (structure_score s : ℚ) * 0.35 +
        (authority_score s : ℚ) * 0.25 ≤ 97 := by
      rcases c1 with h1 | h1 <;> rcases c2 with h2 | h2 <;> rcases c3 with h3 | h3
      · exact absurd ⟨by exact_mod_cast h1, by exact_mod_cast h2, by exact_mod_cast h3⟩ hc
      all_goals linarith
    have hfl : (⌊(10 : ℚ) * ((tech_score s : ℚ) * 0.4 + (structure_score s : ℚ) * 0.35 +
        (authority_score s : ℚ) * 0.25)⌋ : ℚ) ≤ 970 := by
      have := Int.floor_le ((10 : ℚ) * ((tech_score s : ℚ) * 0.4 +
        (structure_score s : ℚ) * 0.35 + (authority_score s : ℚ) * 0.25))
      linarith
    have hle := roundHalfEven_le_floor_add_one ((10 : ℚ) * ((tech_score s : ℚ) * 0.4 +
      (structure_score s : ℚ) * 0.35 + (authority_score s : ℚ) * 0.25))
    rw [final_score, pyRound1, div_eq_iff (by norm_num : (10 : ℚ) ≠ 0)] at h
    have h1000 : roundHalfEven ((10 : ℚ) * ((tech_score s : ℚ) * 0.4 +
        (structure_score s : ℚ) * 0.35 + (authority_score s : ℚ) * 0.25)) = 1000 := by
      exact_mod_cast h
    have hlq : ((roundHalfEven ((10 : ℚ) * ((tech_score s : ℚ) * 0.4 +
        (structure_score s : ℚ) * 0.35 + (authority_score s : ℚ) * 0.25)) : ℤ) : ℚ) ≤
        (⌊(10 : ℚ) * ((tech_score s : ℚ) * 0.4 + (structure_score s : ℚ) * 0.35 +
        (authority_score s : ℚ) * 0.25)⌋ : ℚ) + 1 := by
      exact_mod_cast hle
    rw [h1000] at hlq
    norm_num at hlq
    linarith
  · rintro ⟨h1, h2, h3⟩
    rw [final_score, h1, h2, h3]
    have hz : ((100 : ℕ) : ℚ) * 0.4 + ((100 : ℕ) : ℚ) * 0.35 + ((100 : ℕ) : ℚ) * 0.25 =
        ((100 : ℤ) : ℚ) := by norm_num
    rw [hz, pyRound1_intCast]
    norm_num

/-- C5: the three sub-scores are bounded by 100 (they are sums of the
nonnegative rule points, so the range 0 to 100 follows), the rule points of
each category sum to exactly 100, and the final score is the weighted sum
with weights 0.4, 0.35, 0.25 rounded to one decimal place. -/
theorem sub_scores_bounded_final_weighted (s : SignalSet) :
    tech_score s ≤ 100 ∧ structure_score s ≤ 100 ∧ authority_score s ≤ 100 ∧
    ((ruleTable.take 5).map Rule.points).sum = 100 ∧
    (((ruleTable.drop 5).take 3).map Rule.points).sum = 100 ∧
    ((ruleTable.drop 8).map Rule.points).sum = 100 ∧
    final_score s =
      pyRound1 ((tech_score s : ℚ) * 0.4 + (structure_score s : ℚ) * 0.35 +
        (authority_score s : ℚ) * 0.25) :=
  ⟨tech_score_le s, structure_score_le s, authority_score_le s,
    by decide, by decide, by decide, rfl⟩

/-- C6: the final score is 0 exactly when every rule of the table fails,
and 100 exactly when every rule of the table passes. -/
theorem final_score_extremes_iff (s : SignalSet) :
    (final_score s = 0 ↔ ∀ r ∈ ruleTable, r.cond s = false) ∧
    (final_score s = 100 ↔ ∀ r ∈ ruleTable, r.cond s = true) := by
  constructor
  · rw [final_score_zero_iff, tech_score_zero_iff, structure_score_zero_iff,
      authority_score_zero_iff]
    simp [ruleTable, List.forall_mem_cons]
    tauto
  · rw [final_score_hundred_iff, tech_score_hundred_iff, structure_score_hundred_iff,
      authority_score_hundred_iff]
    simp [ruleTable, List.forall_mem_cons]
    tauto

end GeoAnalyzer
